import Mathlib

/-!
Verification development for the biometric-wallet ledger and transfer
subsystem (tRPC routers over a drizzle/MySQL store).

The store (src/server/db.ts) keeps wallets and an append-only transaction
list; balances are decimal strings mutated through `updateWalletBalance`.
We embed decimal amounts as integer counts of the smallest representable
unit, scale 10^-8 (the source parses decimal(18,8) strings with `parseFloat`
and writes them back; arithmetic on in-range values is modelled exactly, so
the literal fee "0.0005" is 50000 units), wallets and transactions as
structures, and the database as explicit state threaded through each
procedure.  Each router procedure returns the new database state together
with its `{success, error|message}` result object, modelled by `Result`.
-/

namespace BW

/-- Wallet row (drizzle `wallets` table): id, owning user, currency code,
decimal balance, optional deposit address, active flag. -/
structure Wallet where
  id : Nat
  userId : Nat
  currencyCode : String
  balance : ℤ
  address : Option String
  isActive : Bool
  deriving Repr, DecidableEq

/-- Transaction row (drizzle `transactions` table), fields as set by the
routers; unset nullable columns are `none`. -/
structure Txn where
  fromUserId : Option Nat := none
  toUserId : Option Nat := none
  fromWalletId : Nat
  toWalletId : Option Nat := none
  amount : ℤ
  fee : ℤ
  transactionType : String
  status : String
  blockchainTxHash : Option String := none
  description : Option String := none
  deriving Repr, DecidableEq

/-- Database state: the wallets table, the append-only transactions table,
and the auto-increment counter for wallet ids. -/
structure Db where
  wallets : List Wallet
  transactions : List Txn
  nextWalletId : Nat
  deriving Repr, DecidableEq

/-- Result object of a router procedure: `{success: true, message}` or
`{success: false, error}`. -/
inductive Result where
  | ok (message : String)
  | err (error : String)
  deriving Repr, DecidableEq

/-- Whether the procedure reported `success: true`. -/
def Result.isOk : Result → Bool
  | .ok _ => true
  | .err _ => false

/-- Whether the procedure reported `success: false`. -/
def Result.isErr : Result → Bool
  | .ok _ => false
  | .err _ => true

/-! ## Ledger store primitives (src/server/db.ts) -/

/-- Embedding of `getWalletById`: select the wallet row with the given id
(`limit 1`, i.e. the first match). -/
def getWalletById (db : Db) (walletId : Nat) : Option Wallet :=
  db.wallets.find? (fun w => w.id == walletId)

/-- Embedding of `getUserWallets`: all wallet rows of a user, in creation
order. -/
def getUserWallets (db : Db) (userId : Nat) : List Wallet :=
  db.wallets.filter (fun w => w.userId == userId)

/-- Embedding of `updateWalletBalance`: set the balance of every wallet row
whose id matches. -/
def updateWalletBalance (db : Db) (walletId : Nat) (newBalance : ℤ) : Db :=
  { db with
    wallets := db.wallets.map
      (fun w => if w.id == walletId then { w with balance := newBalance } else w) }

/-- Embedding of `createTransaction`: insert one transaction row. -/
def createTransaction (db : Db) (t : Txn) : Db :=
  { db with transactions := db.transactions ++ [t] }

/-- Embedding of `createWallet`: insert a wallet row with balance "0" and
isActive true, taking the next auto-increment id. -/
def createWallet (db : Db) (userId : Nat) (currencyCode : String)
    (address : Option String) : Db :=
  { db with
    wallets := db.wallets ++
      [{ id := db.nextWalletId, userId := userId, currencyCode := currencyCode,
         balance := 0, address := address, isActive := true }]
    nextWalletId := db.nextWalletId + 1 }

/-- Balance of the wallet with the given id, when it exists. -/
def walletBalance (db : Db) (walletId : Nat) : Option ℤ :=
  (getWalletById db walletId).map (fun w => w.balance)

/-! ## Transfer procedure (transactionsRouter.transfer) -/

/-- Input object of `transactions.transfer`. -/
structure TransferInput where
  toUserId : Nat
  fromWalletId : Nat
  toWalletId : Nat
  amount : ℤ
  description : Option String := none
  deriving Repr, DecidableEq

/-- Transaction row built by `transactions.transfer` on the success path:
caller as fromUserId, the caller-supplied toUserId stored verbatim, fee "0",
type "transfer", status "completed". -/
def transferTxn (callerId : Nat) (input : TransferInput) : Txn :=
  { fromUserId := some callerId
    toUserId := some input.toUserId
    fromWalletId := input.fromWalletId
    toWalletId := some input.toWalletId
    amount := input.amount
    fee := 0
    transactionType := "transfer"
    status := "completed"
    description := input.description }

/-- Embedding of `transactionsRouter.transfer`: validate the source wallet
(exists and owned by the caller), the destination wallet (exists), and the
balance (`balance < amount` fails); then insert the transaction row and
write back `balance - amount` and `toBalance + amount`, both computed from
the balances read before any write. -/
def transfer (db : Db) (callerId : Nat) (input : TransferInput) : Db × Result :=
  match getWalletById db input.fromWalletId with
  | none => (db, .err "Invalid source wallet")
  | some fromWallet =>
    if fromWallet.userId ≠ callerId then (db, .err "Invalid source wallet")
    else
      match getWalletById db input.toWalletId with
      | none => (db, .err "Invalid destination wallet")
      | some toWallet =>
        if fromWallet.balance < input.amount then (db, .err "Insufficient balance")
        else
          let db1 := createTransaction db (transferTxn callerId input)
          let db2 := updateWalletBalance db1 input.fromWalletId
            (fromWallet.balance - input.amount)
          let db3 := updateWalletBalance db2 input.toWalletId
            (toWallet.balance + input.amount)
          (db3, .ok "Transfer completed successfully")

/-! ## Deposit and withdrawal procedures (transactionsRouter) -/

/-- Embedding of `transactionsRouter.recordDeposit`: validate ownership,
insert a completed deposit row, then write back `balance + amount`.  The
amount is not validated. -/
def recordDeposit (db : Db) (callerId : Nat) (walletId : Nat) (amount : ℤ)
    (blockchainTxHash : Option String) (description : Option String) : Db × Result :=
  match getWalletById db walletId with
  | none => (db, .err "Invalid wallet")
  | some wallet =>
    if wallet.userId ≠ callerId then (db, .err "Invalid wallet")
    else
      let db1 := createTransaction db
        { toUserId := some callerId
          fromWalletId := walletId
          toWalletId := some walletId
          amount := amount
          fee := 0
          transactionType := "deposit"
          status := "completed"
          blockchainTxHash := blockchainTxHash
          description := some (description.getD "Deposit") }
      let db2 := updateWalletBalance db1 walletId (wallet.balance + amount)
      (db2, .ok "Deposit recorded successfully")

/-- Embedding of `transactionsRouter.recordWithdrawal`: validate ownership
and `balance < amount`, insert a completed withdrawal row, then write back
`balance - amount`. -/
def recordWithdrawal (db : Db) (callerId : Nat) (walletId : Nat) (amount : ℤ)
    (blockchainTxHash : Option String) (description : Option String) : Db × Result :=
  match getWalletById db walletId with
  | none => (db, .err "Invalid wallet")
  | some wallet =>
    if wallet.userId ≠ callerId then (db, .err "Invalid wallet")
    else if wallet.balance < amount then (db, .err "Insufficient balance")
    else
      let db1 := createTransaction db
        { fromUserId := some callerId
          fromWalletId := walletId
          toWalletId := some walletId
          amount := amount
          fee := 0
          transactionType := "withdrawal"
          status := "completed"
          blockchainTxHash := blockchainTxHash
          description := some (description.getD "Withdrawal") }
      let db2 := updateWalletBalance db1 walletId (wallet.balance - amount)
      (db2, .ok "Withdrawal recorded successfully")

/-! ## Crypto withdrawal procedure (cryptoRouter.initiateWithdrawal) -/

/-- Transaction row built by `crypto.initiateWithdrawal`: fee "0.0005",
type "withdrawal", status "pending", description naming the first ten
characters of the destination address. -/
def initiateWithdrawalTxn (callerId : Nat) (wallet : Wallet) (amount : ℤ)
    (destinationAddress : String) : Txn :=
  { fromUserId := some callerId
    fromWalletId := wallet.id
    toWalletId := some wallet.id
    amount := amount
    fee := 50000
    transactionType := "withdrawal"
    status := "pending"
    description := some ("Withdrawal to " ++ destinationAddress.take 10 ++ "...") }

/-- Embedding of `cryptoRouter.initiateWithdrawal`: find the caller's wallet
for the cryptocurrency, fail when the balance is insufficient, and insert a
pending withdrawal row.  The procedure never calls `updateWalletBalance`:
the wallet's balance is left as it was. -/
def initiateWithdrawal (db : Db) (callerId : Nat) (cryptocurrency : String)
    (amount : ℤ) (destinationAddress : String) : Db × Result :=
  match (getUserWallets db callerId).find? (fun w => w.currencyCode == cryptocurrency) with
  | none => (db, .err "Wallet not found")
  | some wallet =>
    if wallet.balance < amount then (db, .err "Insufficient balance")
    else
      (createTransaction db (initiateWithdrawalTxn callerId wallet amount destinationAddress),
        .ok "Withdrawal initiated successfully")

/-! ## Wallet directory procedures (walletsRouter) -/

/-- Embedding of `walletsRouter.create`: fail when the caller already has a
wallet for the currency code, else insert a fresh wallet row. -/
def walletsCreate (db : Db) (callerId : Nat) (currencyCode : String)
    (address : Option String) : Db × Result :=
  let existingWallets := getUserWallets db callerId
  if existingWallets.any (fun w => w.currencyCode == currencyCode) then
    (db, .err ("Wallet for " ++ currencyCode ++ " already exists"))
  else
    (createWallet db callerId currencyCode address,
      .ok (currencyCode ++ " wallet created successfully"))

/-- One entry of the distribution returned by `wallets.getDistribution`. -/
structure DistEntry where
  currency : String
  balance : ℤ
  percentage : ℚ
  deriving Repr, DecidableEq

/-- Total of the raw balances of a user's wallets (the reduce in
`getDistribution` and `getPortfolioValue`). -/
def walletsTotal (db : Db) (callerId : Nat) : ℤ :=
  ((getUserWallets db callerId).map (fun w => w.balance)).sum

/-- Embedding of `walletsRouter.getDistribution`: if the total of the
caller's balances is 0 return the empty list, else one entry per wallet
with percentage `balance / totalValue * 100`. -/
def getDistribution (db : Db) (callerId : Nat) : List DistEntry :=
  let ws := getUserWallets db callerId
  let totalValue : ℤ := (ws.map (fun w => w.balance)).sum
  if totalValue = 0 then []
  else ws.map (fun w =>
    { currency := w.currencyCode, balance := w.balance,
      percentage := (w.balance : ℚ) / (totalValue : ℚ) * 100 })

/-! ## Read/write phases of the transfer

The transfer procedure first performs its reads (`getWalletById` twice) and
computes the two new balances from the values read, then performs its
writes (`createTransaction` and two `updateWalletBalance` calls) with no
lock or database transaction around them.  `transferCheck` is the read and
validation phase, returning the writes the procedure will perform;
`transferApply` performs them.  `transfer_check_apply` below proves that
the sequential procedure is exactly check-then-apply, so an interleaving of
two requests that performs both checks before either apply is an execution
the unsynchronized source permits. -/

/-- Writes the transfer procedure has decided on after its read phase: the
transaction row to insert and the two balance write-backs, whose values were
computed from the balances read before any write. -/
structure TransferPlan where
  txn : Txn
  fromWalletId : Nat
  newFromBalance : ℤ
  toWalletId : Nat
  newToBalance : ℤ
  deriving Repr, DecidableEq

/-- Read-and-validate phase of `transactionsRouter.transfer`. -/
def transferCheck (db : Db) (callerId : Nat) (input : TransferInput) :
    Except String TransferPlan :=
  match getWalletById db input.fromWalletId with
  | none => .error "Invalid source wallet"
  | some fromWallet =>
    if fromWallet.userId ≠ callerId then .error "Invalid source wallet"
    else
      match getWalletById db input.toWalletId with
      | none => .error "Invalid destination wallet"
      | some toWallet =>
        if fromWallet.balance < input.amount then .error "Insufficient balance"
        else
          .ok { txn := transferTxn callerId input
                fromWalletId := input.fromWalletId
                newFromBalance := fromWallet.balance - input.amount
                toWalletId := input.toWalletId
                newToBalance := toWallet.balance + input.amount }

/-- Write phase of `transactionsRouter.transfer`. -/
def transferApply (db : Db) (p : TransferPlan) : Db :=
  updateWalletBalance
    (updateWalletBalance (createTransaction db p.txn) p.fromWalletId p.newFromBalance)
    p.toWalletId p.newToBalance

/-- Perform the writes of a finished check phase; a failed check writes
nothing. -/
def applyChecked (db : Db) (r : Except String TransferPlan) : Db :=
  match r with
  | .error _ => db
  | .ok p => transferApply db p

/-- Whether the check phase accepted the request. -/
def checkOk : Except String TransferPlan → Bool
  | .ok _ => true
  | .error _ => false

/-- Disjunction of the transfer validation failures named by the spec:
source wallet missing or not owned by the caller, destination wallet
missing, or insufficient balance. -/
def transferValidationFails (db : Db) (callerId : Nat) (input : TransferInput) : Prop :=
  getWalletById db input.fromWalletId = none ∨
  (∃ w, getWalletById db input.fromWalletId = some w ∧ w.userId ≠ callerId) ∨
  getWalletById db input.toWalletId = none ∨
  (∃ w, getWalletById db input.fromWalletId = some w ∧ w.balance < input.amount)

/-! ## Concrete database states used as test inputs -/

/-- Empty database. -/
def dbE : Db := { wallets := [], transactions := [], nextWalletId := 1 }

/-- Two users with one USD wallet each: wallet 1 (user 1, balance 10) and
wallet 2 (user 2, balance 7). -/
def dbNeg : Db :=
  { wallets :=
      [{ id := 1, userId := 1, currencyCode := "USD", balance := 10,
         address := none, isActive := true },
       { id := 2, userId := 2, currencyCode := "USD", balance := 7,
         address := none, isActive := true }]
    transactions := [], nextWalletId := 3 }

/-- Transfer request sending -5 from wallet 1 to wallet 2. -/
def inpNeg : TransferInput :=
  { toUserId := 2, fromWalletId := 1, toWalletId := 2, amount := -5 }

/-- One user with one USD wallet of balance 0. -/
def dbDep : Db :=
  { wallets :=
      [{ id := 1, userId := 1, currencyCode := "USD", balance := 0,
         address := none, isActive := true }]
    transactions := [], nextWalletId := 2 }

/-- One user with one USD wallet of balance 10. -/
def dbSelf : Db :=
  { wallets :=
      [{ id := 1, userId := 1, currencyCode := "USD", balance := 10,
         address := none, isActive := true }]
    transactions := [], nextWalletId := 2 }

/-- Transfer request sending 5 from wallet 1 to wallet 1 itself. -/
def inpSelf : TransferInput :=
  { toUserId := 1, fromWalletId := 1, toWalletId := 1, amount := 5 }

/-- Three users with one USD wallet each: wallet 1 (user 1, balance 30),
wallet 2 (user 2, balance 5), wallet 3 (user 3, balance 4). -/
def dbT : Db :=
  { wallets :=
      [{ id := 1, userId := 1, currencyCode := "USD", balance := 30,
         address := none, isActive := true },
       { id := 2, userId := 2, currencyCode := "USD", balance := 5,
         address := none, isActive := true },
       { id := 3, userId := 3, currencyCode := "USD", balance := 4,
         address := none, isActive := true }]
    transactions := [], nextWalletId := 4 }

/-- Transfer request sending 30 from wallet 1 to wallet 2. -/
def inpT : TransferInput :=
  { toUserId := 2, fromWalletId := 1, toWalletId := 2, amount := 30 }

/-- Two deactivated wallets: wallet 1 (user 1, balance 10, isActive false)
and wallet 2 (user 2, balance 0, isActive false). -/
def dbInact : Db :=
  { wallets :=
      [{ id := 1, userId := 1, currencyCode := "USD", balance := 10,
         address := none, isActive := false },
       { id := 2, userId := 2, currencyCode := "USD", balance := 0,
         address := none, isActive := false }]
    transactions := [], nextWalletId := 3 }

/-- Transfer request sending 5 from wallet 1 to wallet 2. -/
def inpInact : TransferInput :=
  { toUserId := 2, fromWalletId := 1, toWalletId := 2, amount := 5 }

/-- The BTC wallet of user 1, balance 10. -/
def wBtc : Wallet :=
  { id := 1, userId := 1, currencyCode := "BTC", balance := 10,
    address := some "1A1z7agoat4FqCnf4Xy2MQUqLCWCuqq2em", isActive := true }

/-- One user with the BTC wallet `wBtc`. -/
def dbBtc : Db := { wallets := [wBtc], transactions := [], nextWalletId := 2 }

/-- One user with a USD wallet of balance 30 and a EUR wallet of
balance 10. -/
def dbW : Db :=
  { wallets :=
      [{ id := 1, userId := 1, currencyCode := "USD", balance := 30,
         address := none, isActive := true },
       { id := 2, userId := 1, currencyCode := "EUR", balance := 10,
         address := none, isActive := true }]
    transactions := [], nextWalletId := 3 }

/-- One user with a single wallet of balance 0. -/
def dbZ : Db :=
  { wallets :=
      [{ id := 1, userId := 1, currencyCode := "USD", balance := 0,
         address := none, isActive := true }]
    transactions := [], nextWalletId := 2 }

/-- Destination wallet owned by user 7. -/
def wtX : Wallet :=
  { id := 2, userId := 7, currencyCode := "USD", balance := 3,
    address := none, isActive := true }

/-- Wallet 1 (user 1, balance 10) and wallet 2 owned by user 7. -/
def dbX : Db :=
  { wallets :=
      [{ id := 1, userId := 1, currencyCode := "USD", balance := 10,
         address := none, isActive := true },
       wtX]
    transactions := [], nextWalletId := 3 }

/-- Transfer request naming toUserId 99, which is not the owner (user 7) of
destination wallet 2. -/
def inpX : TransferInput :=
  { toUserId := 99, fromWalletId := 1, toWalletId := 2, amount := 5 }

/-- Wallet 1 (user 1, balance 100) and two destination wallets of balance 0
owned by users 2 and 3. -/
def dbC : Db :=
  { wallets :=
      [{ id := 1, userId := 1, currencyCode := "USD", balance := 100,
         address := none, isActive := true },
       { id := 2, userId := 2, currencyCode := "USD", balance := 0,
         address := none, isActive := true },
       { id := 3, userId := 3, currencyCode := "USD", balance := 0,
         address := none, isActive := true }]
    transactions := [], nextWalletId := 4 }

/-- First concurrent request: 80 from wallet 1 to wallet 2. -/
def inC1 : TransferInput :=
  { toUserId := 2, fromWalletId := 1, toWalletId := 2, amount := 80 }

/-- Second concurrent request: 80 from wallet 1 to wallet 3. -/
def inC2 : TransferInput :=
  { toUserId := 3, fromWalletId := 1, toWalletId := 3, amount := 80 }

/-! ## Helper lemmas about the store primitives -/

/-- Inserting a transaction row does not change any wallet lookup. -/
theorem getWalletById_createTransaction (db : Db) (t : Txn) (i : Nat) :
    getWalletById (createTransaction db t) i = getWalletById db i := rfl

/-- Writing a balance does not change the transactions table. -/
theorem transactions_updateWalletBalance (db : Db) (i : Nat) (b : ℤ) :
    (updateWalletBalance db i b).transactions = db.transactions := rfl

/-- Balance update commutes with lookup of the updated id (list form). -/
theorem find?_update_self (l : List Wallet) (i : Nat) (b : ℤ) :
    (l.map (fun w => if w.id == i then { w with balance := b } else w)).find?
        (fun w => w.id == i) =
      (l.find? (fun w => w.id == i)).map (fun w => { w with balance := b }) := by
  induction l with
  | nil => rfl
  | cons x xs ih =>
    rw [List.map_cons]
    by_cases h : x.id = i
    · rw [if_pos (by simp [h])]
      rw [List.find?_cons_of_pos _ (by simp [h]), List.find?_cons_of_pos _ (by simp [h])]
      simp
    · rw [if_neg (by simp [h])]
      rw [List.find?_cons_of_neg _ (by simp [h]), List.find?_cons_of_neg _ (by simp [h])]
      exact ih

/-- Balance update of one id leaves lookups of other ids unchanged (list
form). -/
theorem find?_update_ne (l : List Wallet) (i j : Nat) (b : ℤ) (hij : j ≠ i) :
    (l.map (fun w => if w.id == i then { w with balance := b } else w)).find?
        (fun w => w.id == j) = l.find? (fun w => w.id == j) := by
  induction l with
  | nil => rfl
  | cons x xs ih =>
    rw [List.map_cons]
    by_cases h : x.id = i
    · have hj : ¬ x.id = j := fun hh => hij (hh ▸ h)
      rw [if_pos (by simp [h])]
      rw [List.find?_cons_of_neg _ (by simp [hj]), List.find?_cons_of_neg _ (by simp [hj])]
      exact ih
    · by_cases hj : x.id = j
      · rw [if_neg (by simp [h])]
        rw [List.find?_cons_of_pos _ (by simp [hj]), List.find?_cons_of_pos _ (by simp [hj])]
      · rw [if_neg (by simp [h])]
        rw [List.find?_cons_of_neg _ (by simp [hj]), List.find?_cons_of_neg _ (by simp [hj])]
        exact ih

/-- Lookup of the updated wallet id after `updateWalletBalance`. -/
theorem getWalletById_update_self (db : Db) (i : Nat) (b : ℤ) :
    getWalletById (updateWalletBalance db i b) i =
      (getWalletById db i).map (fun w => { w with balance := b }) :=
  find?_update_self db.wallets i b

/-- Lookup of a different wallet id after `updateWalletBalance`. -/
theorem getWalletById_update_ne (db : Db) (i j : Nat) (b : ℤ) (h : j ≠ i) :
    getWalletById (updateWalletBalance db i b) j = getWalletById db j :=
  find?_update_ne db.wallets i j b h

/-- Balance read back after `updateWalletBalance` of an existing wallet. -/
theorem walletBalance_update_self (db : Db) (i : Nat) (b : ℤ)
    (h : (getWalletById db i).isSome = true) :
    walletBalance (updateWalletBalance db i b) i = some b := by
  unfold walletBalance
  rw [getWalletById_update_self]
  obtain ⟨w, hw⟩ := Option.isSome_iff_exists.mp h
  rw [hw]
  rfl

/-- Successful transfers pass every validation and the final state is
exactly the three writes of the success path. -/
theorem transfer_ok_inv (db : Db) (callerId : Nat) (input : TransferInput)
    (hok : (transfer db callerId input).2.isOk = true) :
    ∃ wf wt, getWalletById db input.fromWalletId = some wf ∧ wf.userId = callerId ∧
      getWalletById db input.toWalletId = some wt ∧ ¬ wf.balance < input.amount ∧
      (transfer db callerId input).1 =
        updateWalletBalance
          (updateWalletBalance (createTransaction db (transferTxn callerId input))
            input.fromWalletId (wf.balance - input.amount))
          input.toWalletId (wt.balance + input.amount) := by
  unfold transfer at hok ⊢
  split at hok
  · simp [Result.isOk] at hok
  · rename_i wf hf
    split at hok
    · simp [Result.isOk] at hok
    · rename_i hown
      push_neg at hown
      split at hok
      · simp [Result.isOk] at hok
      · rename_i wt ht
        split at hok
        · simp [Result.isOk] at hok
        · rename_i hbal
          exact ⟨wf, wt, hf, hown, ht, hbal, by simp [hf, ht, hown, hbal]⟩

/-- Forward direction: when every validation passes, the transfer reports
success and the final state is the three writes of the success path. -/
theorem transfer_ok_forward (db : Db) (callerId : Nat) (input : TransferInput)
    (wf wt : Wallet)
    (hf : getWalletById db input.fromWalletId = some wf)
    (hown : wf.userId = callerId)
    (ht : getWalletById db input.toWalletId = some wt)
    (hbal : ¬ wf.balance < input.amount) :
    transfer db callerId input =
      (updateWalletBalance
          (updateWalletBalance (createTransaction db (transferTxn callerId input))
            input.fromWalletId (wf.balance - input.amount))
          input.toWalletId (wt.balance + input.amount),
        .ok "Transfer completed successfully") := by
  unfold transfer
  simp [hf, ht, hown, hbal]

/-- The sequential transfer procedure is exactly its read/validate phase
followed by its write phase. -/
theorem transfer_check_apply (db : Db) (callerId : Nat) (input : TransferInput) :
    transfer db callerId input =
      match transferCheck db callerId input with
      | .error e => (db, .err e)
      | .ok p => (transferApply db p, .ok "Transfer completed successfully") := by
  unfold transfer transferCheck transferApply
  cases hf : getWalletById db input.fromWalletId with
  | none => rfl
  | some wf =>
    by_cases hown : wf.userId ≠ callerId
    · simp [hown]
    · cases ht : getWalletById db input.toWalletId with
      | none => simp [hown]
      | some wt =>
        by_cases hbal : wf.balance < input.amount
        · simp [hown, hbal]
        · simp [hown, hbal]

/-! ## Claims -/

/-- C1: if a transfer request fails any validation step (source wallet
missing or not owned by the caller, destination wallet missing, or
insufficient balance), the procedure returns an error, creates no
Transaction record and changes no wallet balance: the database state after
the call equals the state before it. -/
theorem transfer_failed_validation_atomic (db : Db) (callerId : Nat)
    (input : TransferInput) (h : transferValidationFails db callerId input) :
    (transfer db callerId input).1 = db ∧
    (transfer db callerId input).2.isErr = true := by
  unfold transfer
  rcases h with h | ⟨w, hw, hne⟩ | h | ⟨w, hw, hlt⟩
  · simp [h, Result.isErr]
  · simp [hw, hne, Result.isErr]
  · cases hf : getWalletById db input.fromWalletId with
    | none => simp [Result.isErr]
    | some wf =>
      by_cases hown : wf.userId ≠ callerId
      · simp [hown, Result.isErr]
      · simp [hown, h, Result.isErr]
  · rw [hw]
    by_cases hown : w.userId ≠ callerId
    · simp [hown, Result.isErr]
    · cases ht : getWalletById db input.toWalletId with
      | none => simp [hown, Result.isErr]
      | some wt => simp [hown, hlt, Result.isErr]

/-- Witness for C1: in `dbNeg` there is no wallet 99, so a transfer from
wallet 99 fails and leaves the database exactly as it was. -/
theorem transfer_failed_validation_atomic_witness :
    (transfer dbNeg 1 { toUserId := 2, fromWalletId := 99, toWalletId := 2, amount := 5 }).1
        = dbNeg ∧
    (transfer dbNeg 1 { toUserId := 2, fromWalletId := 99, toWalletId := 2, amount := 5 }).2.isErr
        = true :=
  transfer_failed_validation_atomic dbNeg 1
    { toUserId := 2, fromWalletId := 99, toWalletId := 2, amount := 5 }
    (Or.inl (by decide))

/-- C2 (failing input): the transfer procedure has no amount > 0 check.  A
transfer of amount -5 from wallet 1 (balance 10) to wallet 2 (balance 7)
is accepted: it reports success, records a Transaction whose amount is -5,
raises wallet 1 to 15 and lowers wallet 2 to 2 — instead of failing with an
invalid-amount error before any mutation. -/
theorem transfer_accepts_negative_amount :
    (transfer dbNeg 1 inpNeg).2.isOk = true ∧
    walletBalance (transfer dbNeg 1 inpNeg).1 1 = some 15 ∧
    walletBalance (transfer dbNeg 1 inpNeg).1 2 = some 2 ∧
    (transfer dbNeg 1 inpNeg).1.transactions = [transferTxn 1 inpNeg] ∧
    (transferTxn 1 inpNeg).amount = -5 := by decide

/-- C3 (failing input): recordDeposit validates neither the amount nor the
resulting balance.  Depositing -5 into wallet 1 (balance 0) reports success
and leaves the wallet with the negative balance -5, violating the
balance ≥ 0 invariant. -/
theorem recordDeposit_negative_balance :
    (recordDeposit dbDep 1 1 (-5) none none).2.isOk = true ∧
    walletBalance (recordDeposit dbDep 1 1 (-5) none none).1 1 = some (-5) ∧
    (-5 : ℤ) < 0 := by decide

/-- C4 (counterexample): a transfer from wallet 1 to wallet 1 itself
completes successfully, yet the sum of the source and destination balances
is not conserved: both are wallet 1, whose balance rises from 10 to 15, so
the sum of the two balances goes from 10 + 10 = 20 to 15 + 15 = 30 and the
transfer created 5 out of nothing. -/
theorem transfer_conservation_fails_on_self :
    (transfer dbSelf 1 inpSelf).2.isOk = true ∧
    walletBalance dbSelf 1 = some 10 ∧
    walletBalance (transfer dbSelf 1 inpSelf).1 1 = some 15 ∧
    ¬ ((15 : ℤ) + 15 = 10 + 10) := by decide

/-- C4 (amended): for every transfer between two distinct wallets that
completes successfully, the source loses exactly the amount, the
destination gains exactly the amount — so the sum of the two balances is
conserved — and the lookup of every other wallet id is unchanged. -/
theorem transfer_conservation (db : Db) (callerId : Nat) (input : TransferInput)
    (hne : input.fromWalletId ≠ input.toWalletId)
    (hok : (transfer db callerId input).2.isOk = true) :
    (∃ bf bt, walletBalance db input.fromWalletId = some bf ∧
      walletBalance db input.toWalletId = some bt ∧
      walletBalance (transfer db callerId input).1 input.fromWalletId
        = some (bf - input.amount) ∧
      walletBalance (transfer db callerId input).1 input.toWalletId
        = some (bt + input.amount) ∧
      (bf - input.amount) + (bt + input.amount) = bf + bt) ∧
    ∀ wid : Nat, wid ≠ input.fromWalletId → wid ≠ input.toWalletId →
      getWalletById (transfer db callerId input).1 wid = getWalletById db wid := by
  obtain ⟨wf, wt, hf, hown, ht, hbal, hdb⟩ := transfer_ok_inv db callerId input hok
  constructor
  · refine ⟨wf.balance, wt.balance, ?_, ?_, ?_, ?_, by ring⟩
    · simp [walletBalance, hf]
    · simp [walletBalance, ht]
    · rw [hdb]
      unfold walletBalance
      rw [getWalletById_update_ne _ _ _ _ hne, getWalletById_update_self,
        getWalletById_createTransaction, hf]
      rfl
    · rw [hdb]
      unfold walletBalance
      rw [getWalletById_update_self, getWalletById_update_ne _ _ _ _ (Ne.symm hne),
        getWalletById_createTransaction, ht]
      rfl
  · intro wid h1 h2
    rw [hdb, getWalletById_update_ne _ _ _ _ h2, getWalletById_update_ne _ _ _ _ h1,
      getWalletById_createTransaction]

/-- Witness for C4: the successful transfer of 30 from wallet 1 (balance
30) to wallet 2 (balance 5) in `dbT` conserves the pair's total and leaves
wallet 3 untouched. -/
theorem transfer_conservation_witness :
    (∃ bf bt, walletBalance dbT 1 = some bf ∧ walletBalance dbT 2 = some bt ∧
      walletBalance (transfer dbT 1 inpT).1 1 = some (bf - 30) ∧
      walletBalance (transfer dbT 1 inpT).1 2 = some (bt + 30) ∧
      (bf - 30) + (bt + 30) = bf + bt) ∧
    getWalletById (transfer dbT 1 inpT).1 3 = getWalletById dbT 3 := by
  have h := transfer_conservation dbT 1 inpT (by decide) (by decide)
  exact ⟨h.1, h.2 3 (by decide) (by decide)⟩

/-- C5 (counterexample): both wallets of `dbInact` carry isActive = false,
yet the transfer of 5 from wallet 1 to wallet 2 completes successfully and
moves the funds; the procedure never fails with a WalletInactive error. -/
theorem transfer_ignores_isActive :
    (getWalletById dbInact 1).map (fun w => w.isActive) = some false ∧
    (getWalletById dbInact 2).map (fun w => w.isActive) = some false ∧
    (transfer dbInact 1 inpInact).2.isOk = true ∧
    walletBalance (transfer dbInact 1 inpInact).1 1 = some 5 ∧
    walletBalance (transfer dbInact 1 inpInact).1 2 = some 5 := by decide

/-- C5 (amended): a transfer succeeds exactly when the source wallet exists
and is owned by the caller, the destination wallet exists, and the source
balance is at least the amount; the isActive flags are never consulted and
fromWalletId = toWalletId is permitted. -/
theorem transfer_success_characterization (db : Db) (callerId : Nat)
    (input : TransferInput) :
    (transfer db callerId input).2.isOk = true ↔
      ∃ wf wt, getWalletById db input.fromWalletId = some wf ∧
        wf.userId = callerId ∧ getWalletById db input.toWalletId = some wt ∧
        ¬ wf.balance < input.amount := by
  constructor
  · intro hok
    obtain ⟨wf, wt, hf, hown, ht, hbal, _⟩ := transfer_ok_inv db callerId input hok
    exact ⟨wf, wt, hf, hown, ht, hbal⟩
  · rintro ⟨wf, wt, hf, hown, ht, hbal⟩
    rw [transfer_ok_forward db callerId input wf wt hf hown ht hbal]
    rfl

/-- C6 (counterexample): initiating a withdrawal of 3 from BTC wallet 1
(balance 10) reports success and appends a pending withdrawal Transaction,
but the balance is NOT debited: it stays 10 instead of dropping to 7. -/
theorem initiateWithdrawal_no_debit_counterexample :
    (initiateWithdrawal dbBtc 1 "BTC" 3 "bc1qdestination").2.isOk = true ∧
    walletBalance (initiateWithdrawal dbBtc 1 "BTC" 3 "bc1qdestination").1 1 = some 10 ∧
    ¬ walletBalance (initiateWithdrawal dbBtc 1 "BTC" 3 "bc1qdestination").1 1
        = some (10 - 3) ∧
    (initiateWithdrawal dbBtc 1 "BTC" 3 "bc1qdestination").1.transactions
        = [initiateWithdrawalTxn 1 wBtc 3 "bc1qdestination"] ∧
    (initiateWithdrawalTxn 1 wBtc 3 "bc1qdestination").status = "pending" := by decide

/-- C6 (amended): for every crypto withdrawal initiation on a wallet of the
caller with sufficient balance, the procedure reports success and appends
one Transaction of type withdrawal with status pending, but performs no
balance write: the wallets table is exactly what it was. -/
theorem initiateWithdrawal_pending_no_debit (db : Db) (callerId : Nat)
    (cryptocurrency : String) (amount : ℤ) (destinationAddress : String) (w : Wallet)
    (hw : (getUserWallets db callerId).find? (fun x => x.currencyCode == cryptocurrency)
        = some w)
    (hbal : ¬ w.balance < amount) :
    (initiateWithdrawal db callerId cryptocurrency amount destinationAddress).2.isOk
        = true ∧
    (initiateWithdrawal db callerId cryptocurrency amount destinationAddress).1.wallets
        = db.wallets ∧
    (initiateWithdrawal db callerId cryptocurrency amount destinationAddress).1.transactions
        = db.transactions ++ [initiateWithdrawalTxn callerId w amount destinationAddress] ∧
    (initiateWithdrawalTxn callerId w amount destinationAddress).transactionType
        = "withdrawal" ∧
    (initiateWithdrawalTxn callerId w amount destinationAddress).status = "pending" := by
  unfold initiateWithdrawal
  rw [hw]
  simp [hbal, createTransaction, initiateWithdrawalTxn, Result.isOk]

/-- Witness for C6: initiating a withdrawal of 4 from BTC wallet `wBtc`
(balance 10) leaves the wallets table unchanged and appends the pending
withdrawal row. -/
theorem initiateWithdrawal_pending_no_debit_witness :
    (initiateWithdrawal dbBtc 1 "BTC" 4 "bc1qwitnessaddr").2.isOk = true ∧
    (initiateWithdrawal dbBtc 1 "BTC" 4 "bc1qwitnessaddr").1.wallets = dbBtc.wallets ∧
    (initiateWithdrawal dbBtc 1 "BTC" 4 "bc1qwitnessaddr").1.transactions
        = dbBtc.transactions ++ [initiateWithdrawalTxn 1 wBtc 4 "bc1qwitnessaddr"] ∧
    (initiateWithdrawalTxn 1 wBtc 4 "bc1qwitnessaddr").transactionType = "withdrawal" ∧
    (initiateWithdrawalTxn 1 wBtc 4 "bc1qwitnessaddr").status = "pending" :=
  initiateWithdrawal_pending_no_debit dbBtc 1 "BTC" 4 "bc1qwitnessaddr" wBtc
    (by decide) (by decide)

/-- C7: getDistribution returns the empty list when the total of the
caller's balances is 0 (no division-by-zero error), and otherwise one entry
per wallet whose percentage is the wallet's balance divided by the total of
all the user's balances, times 100. -/
theorem getDistribution_spec (db : Db) (callerId : Nat) :
    (walletsTotal db callerId = 0 → getDistribution db callerId = []) ∧
    (walletsTotal db callerId ≠ 0 →
      getDistribution db callerId = (getUserWallets db callerId).map
        (fun w =>
          { currency := w.currencyCode, balance := w.balance,
            percentage := (w.balance : ℚ) / (walletsTotal db callerId : ℚ) * 100 })) := by
  unfold getDistribution walletsTotal
  constructor
  · intro h
    simp [h]
  · intro h
    simp [h]

/-- Witness for C7: user 1 in `dbZ` has total balance 0 and gets the empty
distribution; in `dbW` the totals are 30 + 10 = 40 and the percentages are
75 and 25. -/
theorem getDistribution_spec_witness :
    getDistribution dbZ 1 = [] ∧
    getDistribution dbW 1 =
      [{ currency := "USD", balance := 30, percentage := 75 },
       { currency := "EUR", balance := 10, percentage := 25 }] := by
  constructor
  · exact (getDistribution_spec dbZ 1).1 (by decide)
  · rw [(getDistribution_spec dbW 1).2 (by decide)]
    norm_num [getUserWallets, dbW, walletsTotal]

/-- C8: at most one wallet per (owner, currency) pair.  When a first
`wallets.create` call for a currency succeeds, a second call for the same
caller and currency fails with an already-exists error and changes nothing:
no second wallet is created and the first wallet is untouched. -/
theorem walletsCreate_unique (db : Db) (callerId : Nat) (cc : String)
    (a1 a2 : Option String)
    (h : ((walletsCreate db callerId cc a1).2).isOk = true) :
    ((walletsCreate (walletsCreate db callerId cc a1).1 callerId cc a2).2).isErr = true ∧
    (walletsCreate (walletsCreate db callerId cc a1).1 callerId cc a2).1
        = (walletsCreate db callerId cc a1).1 := by
  unfold walletsCreate at h ⊢
  by_cases hex : (getUserWallets db callerId).any (fun w => w.currencyCode == cc)
  · simp [hex, Result.isOk] at h
  · simp only [hex, if_false, Bool.false_eq_true]
    have hmem : ((getUserWallets (createWallet db callerId cc a1) callerId).any
        (fun w => w.currencyCode == cc)) = true := by
      unfold getUserWallets createWallet
      simp [List.filter_append, List.any_append]
    simp [hex, hmem, Result.isErr]

/-- Witness for C8: creating a USD wallet in the empty database succeeds,
and creating it again fails and leaves the database unchanged. -/
theorem walletsCreate_unique_witness :
    ((walletsCreate (walletsCreate dbE 1 "USD" none).1 1 "USD" none).2).isErr = true ∧
    (walletsCreate (walletsCreate dbE 1 "USD" none).1 1 "USD" none).1
        = (walletsCreate dbE 1 "USD" none).1 :=
  walletsCreate_unique dbE 1 "USD" none none (by decide)

/-- C9 (failing input): the transfer procedure reads both balances, computes
the new balances, and only then writes, with no lock or transaction.  In the
interleaving where two requests for 80 out of wallet 1 (balance 100) both
run their read/validate phase against the initial state before either write
phase runs, both requests are accepted, wallet 1 ends at 20 instead of
failing one request, and 160 in total is credited to wallets 2 and 3 — a
lost update that creates 60 out of nothing. -/
theorem concurrent_transfers_lost_update :
    checkOk (transferCheck dbC 1 inC1) = true ∧
    checkOk (transferCheck dbC 1 inC2) = true ∧
    walletBalance
      (applyChecked (applyChecked dbC (transferCheck dbC 1 inC1)) (transferCheck dbC 1 inC2))
      1 = some 20 ∧
    walletBalance
      (applyChecked (applyChecked dbC (transferCheck dbC 1 inC1)) (transferCheck dbC 1 inC2))
      2 = some 80 ∧
    walletBalance
      (applyChecked (applyChecked dbC (transferCheck dbC 1 inC1)) (transferCheck dbC 1 inC2))
      3 = some 80 ∧
    (applyChecked (applyChecked dbC (transferCheck dbC 1 inC1))
      (transferCheck dbC 1 inC2)).transactions.length = 2 := by decide

/-- C10: the transfer procedure never compares the caller-supplied toUserId
with the destination wallet's owner.  Whenever the source wallet is owned by
the caller with sufficient balance and the destination wallet exists, the
transfer succeeds — whoever owns the destination — credits the destination
wallet, and the Transaction row stores the caller-supplied toUserId
verbatim. -/
theorem transfer_ignores_toUserId (db : Db) (callerId : Nat) (input : TransferInput)
    (wf wt : Wallet)
    (hf : getWalletById db input.fromWalletId = some wf)
    (hown : wf.userId = callerId)
    (ht : getWalletById db input.toWalletId = some wt)
    (hbal : ¬ wf.balance < input.amount) :
    (transfer db callerId input).2.isOk = true ∧
    walletBalance (transfer db callerId input).1 input.toWalletId
        = some (wt.balance + input.amount) ∧
    (transfer db callerId input).1.transactions
        = db.transactions ++ [transferTxn callerId input] ∧
    (transferTxn callerId input).toUserId = some input.toUserId := by
  rw [transfer_ok_forward db callerId input wf wt hf hown ht hbal]
  refine ⟨rfl, ?_, rfl, rfl⟩
  apply walletBalance_update_self
  by_cases hne : input.toWalletId = input.fromWalletId
  · rw [hne, getWalletById_update_self, getWalletById_createTransaction, hf]
    rfl
  · rw [getWalletById_update_ne _ _ _ _ hne, getWalletById_createTransaction, ht]
    rfl

/-- Witness for C10: in `dbX` the destination wallet 2 belongs to user 7,
the request names toUserId 99, and the transfer still succeeds, credits
wallet 2, and records toUserId 99 in the Transaction row. -/
theorem transfer_ignores_toUserId_witness :
    wtX.userId = 7 ∧ inpX.toUserId = 99 ∧ wtX.userId ≠ inpX.toUserId ∧
    ((transfer dbX 1 inpX).2.isOk = true ∧
      walletBalance (transfer dbX 1 inpX).1 2 = some (wtX.balance + inpX.amount) ∧
      (transfer dbX 1 inpX).1.transactions = dbX.transactions ++ [transferTxn 1 inpX] ∧
      (transferTxn 1 inpX).toUserId = some inpX.toUserId) :=
  ⟨by decide, by decide, by decide,
    transfer_ignores_toUserId dbX 1 inpX
      { id := 1, userId := 1, currencyCode := "USD", balance := 10,
        address := none, isActive := true }
      wtX (by decide) (by decide) (by decide) (by decide)⟩

end BW
